import Mathlib

/-!
A verification development for the pdfgen4vcman page-rendering pipeline.

The definitions below are shallow embeddings of the JavaScript source:

* `getNextProxy` embeds the round-robin proxy selector of
  src/lib/generator.js (function getNextProxy, lines 16 to 26).
* `jsGt`, `failureSignal`, `catchResourceLoadErrors` embed the per-step
  resource-error check of src/lib/generator.js (lines 375 to 391); the
  option field resourceHttpErrorAllowed can be a number or the JavaScript
  value undefined, modelled here as an Option Int, where a comparison
  against undefined is always false.
* `gotoWatcherAborts` embeds the condition of the goto() progress watcher
  of src/lib/generator.js (lines 417 to 425).
* `generatePagePdfAborts` embeds the leniency-gated step sequence of
  generatePagePdf (src/lib/generator.js, lines 394 to 899), reduced to the
  abort decisions: each gated step has a boolean failure-signal input and
  the function returns the first step whose gate fires, if any.
* `processUrl` embeds the per-URL retry loop of generatePdfs
  (src/lib/generator.js, lines 292 to 357) as a fuel-indexed function that
  records the externally visible events (render attempts, browser resets,
  sleeps, appends) and the counter state.
* `removeEmptyPages` embeds the ink-coverage page-removal loop of
  src/bin/pdfgen4vcman-cli.js (lines 314 to 350), and `finalizeRun` the
  surrounding save / cleanup / re-save logic (lines 278 to 390).
* `cliOptionAttributes` lists the option attribute names produced by the
  commander option table of src/bin/pdfgen4vcman-cli.js (lines 420 to 469).
-/

namespace Pdfgen

/-! ### Proxy rotation (src/lib/generator.js, getNextProxy) -/

/-- Round-robin proxy selector.  Mirrors getNextProxy: returns nothing when
the pool is empty or the index is out of range; otherwise returns the proxy
at the index together with the next index, which wraps to zero when it
would reach the pool length. -/
def getNextProxy {α : Type} (currentIndex : Nat) (proxies : List α) : Option (α × Nat) :=
  if h : 0 < proxies.length ∧ currentIndex < proxies.length then
    some (proxies.get ⟨currentIndex, h.2⟩,
      if proxies.length ≤ currentIndex + 1 then 0 else currentIndex + 1)
  else
    none

/-- The proxies produced by n successive getNextProxy calls, each call
feeding its returned index into the next call. -/
def visitProxies {α : Type} (proxies : List α) : Nat → Nat → List α
  | _, 0 => []
  | idx, n + 1 =>
    match getNextProxy idx proxies with
    | some (p, idx2) => p :: visitProxies proxies idx2 n
    | none => []

/-! ### Resource-error monitoring (src/lib/generator.js, catchResourceLoadErrors) -/

/-- JavaScript comparison x > y where y may be the value undefined (none):
comparing a number with undefined yields false. -/
def jsGt (x : Int) (y : Option Int) : Bool :=
  match y with
  | some v => decide (v < x)
  | none => false

/-- The boolean computed on both paths of catchResourceLoadErrors
(src/lib/generator.js line 381 and line 385):
errorsAfter - errorsBefore >= 0 && errorsAfter > options.resourceHttpErrorAllowed. -/
def failureSignal (allowed : Option Int) (errorsBefore errorsAfter : Int) : Bool :=
  decide (0 ≤ errorsAfter - errorsBefore) && jsGt errorsAfter allowed

/-- catchResourceLoadErrors: snapshots the counter before the wrapped step
(errorsBefore) and after it (errorsAfter).  When the wrapped step throws,
the failure signal is computed (recorded in the log) and the exception is
re-thrown, modelled as an error value carrying the recorded signal;
otherwise the signal is returned. -/
def catchResourceLoadErrors (allowed : Option Int) (errorsBefore errorsAfter : Int)
    (stepThrows : Bool) : Except Bool Bool :=
  if stepThrows then Except.error (failureSignal allowed errorsBefore errorsAfter)
  else Except.ok (failureSignal allowed errorsBefore errorsAfter)

/-- Modelled from the spec: the failure signal that the specification
describes, namely that the counter increased by more than the allowed
threshold during the step (the delta between the two snapshots is compared
with the threshold).  Stated for comparison with `failureSignal`, which is
what the source computes. -/
def specDeltaSignal (allowed : Option Int) (errorsBefore errorsAfter : Int) : Bool :=
  jsGt (errorsAfter - errorsBefore) allowed

/-- Condition of the goto() progress watcher (src/lib/generator.js line 419):
the navigation is cancelled once
resourceLoadErrorCounter > options.resourceHttpErrorAllowed. -/
def gotoWatcherAborts (counter : Int) (allowed : Option Int) : Bool :=
  jsGt counter allowed

/-! ### The leniency-gated pipeline (src/lib/generator.js, generatePagePdf) -/

/-- The pipeline steps of generatePagePdf that can abort an attempt. -/
inductive Step where
  | goto
  | scroll
  | idleAfterScroll
  | tocLinks
  | tocMod
  | relatedRemoval
  | hyperlink
  | onetrust
  | pageElemRemoval
  | iframeRemoval
  | idleAfterDom
  | errorTextScan
  | pdfRender
deriving DecidableEq, Repr

/-- The failure-signal inputs of one rendering attempt: for each gated step
the boolean produced by its error check, plus the unconditional error-text
hit and a PDF-capture failure. -/
structure StepErrors where
  gotoError : Bool
  scrollError : Bool
  idleAfterScrollError : Bool
  tocLinksError : Bool
  tocModError : Bool
  relatedRemovalError : Bool
  hyperlinkError : Bool
  onetrustError : Bool
  pageElemRemovalError : Bool
  iframeRemovalError : Bool
  idleAfterDomError : Bool
  errorTextFound : Bool
  pdfRenderError : Bool
deriving DecidableEq, Repr

/-- The abort decisions of generatePagePdf, in source order: each branch
mirrors one leniency-gated throw site of src/lib/generator.js
(lines 465, 494, 505, 535, 583, 612, 637, 687, 795, 816, 837), followed by
the unconditional error-text throw (line 848) and the re-thrown PDF-capture
failure (line 885).  The ToC-only steps run only when isToCPage is true and
the related-content removal only on a content page without the links
option.  Returns the first step whose gate fires, or none. -/
def generatePagePdfAborts (leniency : Nat) (isToCPage links : Bool) (e : StepErrors) :
    Option Step :=
  if leniency ≤ 11 ∧ e.gotoError = true then some .goto
  else if leniency ≤ 10 ∧ e.scrollError = true then some .scroll
  else if leniency ≤ 9 ∧ e.idleAfterScrollError = true then some .idleAfterScroll
  else if isToCPage = true ∧ leniency ≤ 8 ∧ e.tocLinksError = true then some .tocLinks
  else if isToCPage = true ∧ leniency ≤ 6 ∧ e.tocModError = true then some .tocMod
  else if isToCPage = false ∧ links = false ∧ leniency ≤ 5 ∧ e.relatedRemovalError = true then
    some .relatedRemoval
  else if leniency ≤ 4 ∧ e.hyperlinkError = true then some .hyperlink
  else if leniency ≤ 3 ∧ e.onetrustError = true then some .onetrust
  else if leniency ≤ 2 ∧ e.pageElemRemovalError = true then some .pageElemRemoval
  else if leniency ≤ 1 ∧ e.iframeRemovalError = true then some .iframeRemoval
  else if leniency = 0 ∧ e.idleAfterDomError = true then some .idleAfterDom
  else if e.errorTextFound = true then some .errorTextScan
  else if e.pdfRenderError = true then some .pdfRender
  else none

/-- The fixed leniency threshold of each gated step; none for the two
unconditional abort sites. -/
def stepThreshold : Step → Option Nat
  | .goto => some 11
  | .scroll => some 10
  | .idleAfterScroll => some 9
  | .tocLinks => some 8
  | .tocMod => some 6
  | .relatedRemoval => some 5
  | .hyperlink => some 4
  | .onetrust => some 3
  | .pageElemRemoval => some 2
  | .iframeRemoval => some 1
  | .idleAfterDom => some 0
  | .errorTextScan => none
  | .pdfRender => none

/-- An attempt in which no step detects an error. -/
def noErrors : StepErrors :=
  ⟨false, false, false, false, false, false, false, false, false, false, false, false, false⟩

/-- The attempt in which exactly the given step detects an error. -/
def soloErrors : Step → StepErrors
  | .goto => { noErrors with gotoError := true }
  | .scroll => { noErrors with scrollError := true }
  | .idleAfterScroll => { noErrors with idleAfterScrollError := true }
  | .tocLinks => { noErrors with tocLinksError := true }
  | .tocMod => { noErrors with tocModError := true }
  | .relatedRemoval => { noErrors with relatedRemovalError := true }
  | .hyperlink => { noErrors with hyperlinkError := true }
  | .onetrust => { noErrors with onetrustError := true }
  | .pageElemRemoval => { noErrors with pageElemRemovalError := true }
  | .iframeRemoval => { noErrors with iframeRemovalError := true }
  | .idleAfterDom => { noErrors with idleAfterDomError := true }
  | .errorTextScan => { noErrors with errorTextFound := true }
  | .pdfRender => { noErrors with pdfRenderError := true }

/-- The page kind on which the given step is executed: the two ToC-only
steps need a table-of-contents page, every other step runs on a content
page. -/
def soloIsToC : Step → Bool
  | .tocLinks => true
  | .tocMod => true
  | _ => false

/-! ### The per-URL retry loop (src/lib/generator.js, generatePdfs) -/

/-- The option fields of generatePdfs that drive the retry loop. -/
structure GenOpts where
  retries : Nat
  force : Bool
  waitTime : Nat
  newBrowserPerUrls : Nat
  proxy : Option (List String)
deriving DecidableEq, Repr

/-- Externally visible events of the retry loop: a generatePagePdf call for
a given attempt number, a full browser cleanup (cleanupBrowser), a backoff
sleep, a newBrowserPage call with its startNew argument, and the two append
paths. -/
inductive Ev where
  | render (attempt : Nat)
  | fullReset
  | sleep (seconds : Nat)
  | newBrowser (startNew : Bool)
  | appendCached
  | appendRendered
deriving DecidableEq, Repr

/-- The mutable counters of generatePdfs that the loop reads and writes:
pageLoadErrorCounter (consecutive failures, reset on success and when the
backoff wait triggers) and pageGenerationCounter (number of generatePagePdf
calls made so far, failed or successful). -/
structure LoopState where
  pageLoadErrorCounter : Nat
  pageGenerationCounter : Nat
deriving DecidableEq, Repr

/-- Result of running the per-URL loop with a given amount of fuel: either
the loop finished (success true: artifact appended and the loop broke;
success false: retries exhausted and the run was rejected), or the fuel ran
out with the loop still retrying. -/
inductive RunResult where
  | done (evs : List Ev) (st : LoopState) (success : Bool)
  | fuelOut (evs : List Ev) (st : LoopState)
deriving DecidableEq, Repr

/-- The retry decision of src/lib/generator.js line 315:
options.retries == 0 || pdfGenCounter < options.retries. -/
def willRetry (retries attempt : Nat) : Bool :=
  decide (retries = 0) || decide (attempt < retries)

/-- The backoff condition of src/lib/generator.js line 327:
(options.proxy && (options.proxy.length == 0 ||
pageLoadErrorCounter >= options.proxy.length) || !options.proxy) &&
options.waitTime > 0.  An absent proxy option is none; an empty proxy list
is truthy in JavaScript, so the length test decides for it. -/
def sleepNeeded (o : GenOpts) (errCounter : Nat) : Bool :=
  (match o.proxy with
   | some ps => decide (ps.length = 0) || decide (ps.length ≤ errCounter)
   | none => true)
  && decide (0 < o.waitTime)

/-- The session-recycling decision of src/lib/generator.js line 341:
options.newBrowserPerUrls && options.newBrowserPerUrls > 0 &&
pageGenerationCounter % options.newBrowserPerUrls == 0. -/
def newBrowserNeeded (o : GenOpts) (genCounter : Nat) : Bool :=
  decide (0 < o.newBrowserPerUrls) && decide (genCounter % o.newBrowserPerUrls = 0)

/-- Prepends the events of the current iteration to the result of the
remaining iterations. -/
def prependEvs (evs : List Ev) : RunResult → RunResult
  | .done evs2 st b => .done (evs ++ evs2) st b
  | .fuelOut evs2 st => .fuelOut (evs ++ evs2) st

/-- One URL's iteration of the generatePdfs loop (src/lib/generator.js,
lines 295 to 355), driven by fuel.  Inputs: whether a cached artifact
exists for the URL, whether the task is the table-of-contents page, and an
oracle telling for each attempt number whether generatePagePdf succeeds.
Mirrored behaviour per iteration: a cached artifact on a non-ToC task
without force is appended and the loop breaks; otherwise an attempt is
rendered and the generation counter incremented; on success the browser is
recycled (full cleanup first when the counter threshold fires), the
failure counter reset and the artifact appended; on a retryable failure
the failure counter is incremented, a full cleanup performed, the backoff
wait (which zeroes the failure counter) taken when its condition holds,
and a fresh browser started; on an exhausted-retries failure a full
cleanup is performed and the task is rejected. -/
def processUrl (o : GenOpts) (isToCPage pdfExists : Bool) (succeeds : Nat → Bool) :
    Nat → Nat → LoopState → RunResult
  | 0, _, st => .fuelOut [] st
  | fuel + 1, attempt, st =>
    if pdfExists && !isToCPage && !o.force then
      .done [.appendCached] st true
    else
      let st1 : LoopState := ⟨st.pageLoadErrorCounter, st.pageGenerationCounter + 1⟩
      if succeeds attempt then
        let nb := newBrowserNeeded o st1.pageGenerationCounter
        .done ([.render attempt] ++ (if nb then [.fullReset] else [])
            ++ [.newBrowser nb, .appendRendered])
          ⟨0, st1.pageGenerationCounter⟩ true
      else
        if willRetry o.retries attempt then
          let st2 : LoopState := ⟨st1.pageLoadErrorCounter + 1, st1.pageGenerationCounter⟩
          let sl := sleepNeeded o st2.pageLoadErrorCounter
          let st3 : LoopState := if sl then ⟨0, st2.pageGenerationCounter⟩ else st2
          let evs := [.render attempt, .fullReset]
            ++ (if sl then [.sleep o.waitTime] else []) ++ [.newBrowser true]
          prependEvs evs (processUrl o isToCPage pdfExists succeeds fuel (attempt + 1) st3)
        else
          .done [.render attempt, .fullReset] st1 false

/-- The event list of a run result. -/
def resultEvs : RunResult → List Ev
  | .done evs _ _ => evs
  | .fuelOut evs _ => evs

/-- Number of generatePagePdf calls recorded in an event list. -/
def renders (evs : List Ev) : Nat :=
  evs.countP fun e => match e with | .render _ => true | _ => false

/-- Whether the loop finished (as opposed to running out of fuel). -/
def isDone : RunResult → Bool
  | .done _ _ _ => true
  | .fuelOut _ _ => false

/-- The finished outcome of a run: some true (task succeeded), some false
(task rejected after exhausting its retries), or none (still retrying when
the fuel ran out). -/
def resultSuccess : RunResult → Option Bool
  | .done _ _ b => some b
  | .fuelOut _ _ => none

/-! ### Empty-page removal and final assembly (src/bin/pdfgen4vcman-cli.js, main) -/

/-- One parsed Ghostscript inkcov line: the four per-channel coverage
values of one page. -/
structure InkCov where
  c : ℚ
  m : ℚ
  y : ℚ
  k : ℚ
deriving DecidableEq, Repr

/-- The per-line coverage sum computed by src/bin/pdfgen4vcman-cli.js,
lines 320 to 331. -/
def covSum (x : InkCov) : ℚ :=
  x.c + x.m + x.y + x.k

/-- The page-removal loop of src/bin/pdfgen4vcman-cli.js, lines 315 to 344:
line index i and removedPageCount walk the parsed coverage lines; a page
whose sum is non-negative and strictly below the threshold is removed at
document index i - removedPageCount.  Returns the remaining pages and the
number of removed pages. -/
def removeEmptyPages {α : Type} (threshold : ℚ) :
    List InkCov → Nat → Nat → List α → List α × Nat
  | [], _, removed, doc => (doc, removed)
  | line :: rest, i, removed, doc =>
    if 0 ≤ covSum line ∧ covSum line < threshold then
      removeEmptyPages threshold rest (i + 1) (removed + 1) (doc.eraseIdx (i - removed))
    else
      removeEmptyPages threshold rest (i + 1) removed doc

/-- The pages that survive the removal pass, computed positionally: the
page paired with the i-th coverage line is kept exactly when that line's
sum is not strictly below the threshold (sums are non-negative). -/
def keepPages {α : Type} (threshold : ℚ) : List InkCov → List α → List α
  | _, [] => []
  | [], doc => doc
  | line :: rest, p :: doc =>
    if covSum line < threshold then keepPages threshold rest doc
    else p :: keepPages threshold rest doc

/-- Outcome of the final assembly phase: the process exit code contribution
and, when the output file was written, its final page content. -/
structure MainOutcome (α : Type) where
  exitCode : Nat
  written : Option (List α)
deriving DecidableEq, Repr

/-- The save / cleanup / re-save logic of src/bin/pdfgen4vcman-cli.js,
lines 278 to 390, after a successful generation phase and with a
well-formed Ghostscript run: a document with at least one page is saved;
when cleanup is enabled the removal pass runs and the file is re-saved
only when at least one page was removed; a document with zero pages sets
exit code 15 and writes no file. -/
def finalizeRun {α : Type} (pdfCleanup : Bool) (threshold : ℚ) (lines : List InkCov)
    (doc : List α) : MainOutcome α :=
  if 0 < doc.length then
    if pdfCleanup then
      let res := removeEmptyPages threshold lines 0 0 doc
      if 0 < res.2 then ⟨0, some res.1⟩ else ⟨0, some doc⟩
    else ⟨0, some doc⟩
  else ⟨15, none⟩

/-! ### The CLI option table (src/bin/pdfgen4vcman-cli.js, cli) -/

/-- The attribute names of every Options field the commander option table
of src/bin/pdfgen4vcman-cli.js can set (lines 423 to 459, attribute names
as commander derives them from the long flags), together with the two
fields assigned in the action handler (lines 461 to 467). -/
def cliOptionAttributes : List String :=
  [ "urlDomainSuffix", "output", "proxy", "userAgent", "browserLongOption",
    "browserShortOption", "timeout", "toc", "tocLimit", "headless", "insecure",
    "hyphenation", "links", "retries", "pageHttpError", "resourceHttpError",
    "resourceHttpErrorDomainSuffix", "resourceHttpErrorUrlException", "userDir",
    "pdfDir", "pdfCleanup", "pdfCleanupThreshold", "ghostscriptPath",
    "pdfOmitBackground", "pdfPrintBackground", "pdfTopBottomMargin",
    "pdfLeftRightMargin", "pdfDisplayHeaderFooter", "force", "waitTime",
    "pdfTimeout", "titleCaption", "leniency", "newBrowserPerUrls", "logLevel",
    "pdfPageSize", "idleConcurrency", "defaultUserAgent" ]

/-! ### Theorems -/

theorem getNextProxy_in_range {α : Type} (ps : List α) (i : Nat) (h : i < ps.length) :
    getNextProxy i ps = some (ps.get ⟨i, h⟩, (i + 1) % ps.length) := by
  have hp : 0 < ps.length := Nat.lt_of_le_of_lt (Nat.zero_le i) h
  unfold getNextProxy
  rw [dif_pos ⟨hp, h⟩]
  by_cases h2 : ps.length ≤ i + 1
  · have he : i + 1 = ps.length := by omega
    rw [if_pos h2, he, Nat.mod_self]
  · rw [if_neg h2, Nat.mod_eq_of_lt (by omega)]

theorem visitProxies_wrap {α : Type} (ps : List α) :
    ∀ (k m i : Nat), 0 < k → i + k = ps.length →
      visitProxies ps i (k + m) = ps.drop i ++ visitProxies ps 0 m := by
  intro k
  induction k with
  | zero => omega
  | succ k ih =>
    intro m i _ hik
    have hi : i < ps.length := by omega
    have hstep : k + 1 + m = (k + m) + 1 := by omega
    rw [hstep]
    show visitProxies ps i ((k + m) + 1) = ps.drop i ++ visitProxies ps 0 m
    rw [visitProxies, getNextProxy_in_range ps i hi]
    cases k with
    | zero =>
      have he : i + 1 = ps.length := by omega
      have hmod : (i + 1) % ps.length = 0 := by rw [he, Nat.mod_self]
      have hdrop : ps.drop i = ps.get ⟨i, hi⟩ :: ps.drop (i + 1) := by
        rw [List.drop_eq_getElem_cons hi, List.get_eq_getElem]
      have hnil : ps.drop (i + 1) = [] := by
        rw [he]; exact List.drop_length ps
      simp only [hmod, Nat.zero_add, hdrop, hnil]
      rfl
    | succ kk =>
      have hlt : i + 1 < ps.length := by omega
      have hmod : (i + 1) % ps.length = i + 1 := Nat.mod_eq_of_lt hlt
      have hdrop : ps.drop i = ps.get ⟨i, hi⟩ :: ps.drop (i + 1) := by
        rw [List.drop_eq_getElem_cons hi, List.get_eq_getElem]
      rw [hmod]
      show ps.get ⟨i, hi⟩ :: visitProxies ps (i + 1) (kk + 1 + m) =
        ps.drop i ++ visitProxies ps 0 m
      rw [ih (m := m) (i := i + 1) (by omega) (by omega), hdrop]
      rfl

/-- Claim C7: getNextProxy returns nothing when the pool is empty or the
index is out of range, and otherwise returns the proxy at the index
together with the index (index + 1) mod pool length; consequently, on a
non-empty pool of size N, N + 1 successive calls starting at index 0 visit
each proxy exactly once and then return the first proxy again. -/
theorem c7_proxy_rotation (α : Type) :
    (∀ i : Nat, getNextProxy i ([] : List α) = none) ∧
    (∀ (i : Nat) (ps : List α), ps.length ≤ i → getNextProxy i ps = none) ∧
    (∀ (i : Nat) (ps : List α) (h : i < ps.length),
      getNextProxy i ps = some (ps.get ⟨i, h⟩, (i + 1) % ps.length)) ∧
    (∀ (ps : List α) (h : ps ≠ []),
      visitProxies ps 0 (ps.length + 1) = ps ++ [ps.head h]) := by
  refine ⟨fun i => ?_, fun i ps hle => ?_, fun i ps h => getNextProxy_in_range ps i h,
    fun ps h => ?_⟩
  · unfold getNextProxy
    rw [dif_neg]
    simp
  · unfold getNextProxy
    rw [dif_neg]
    omega
  · have hlen : 0 < ps.length := List.length_pos.mpr h
    have h1 := visitProxies_wrap ps ps.length 1 0 hlen (by omega)
    rw [h1, List.drop_zero]
    have h2 : visitProxies ps 0 1 = [ps.head h] := by
      show visitProxies ps 0 (0 + 1) = [ps.head h]
      rw [visitProxies, getNextProxy_in_range ps 0 hlen]
      show ps.get ⟨0, hlen⟩ :: visitProxies ps ((0 + 1) % ps.length) 0 = [ps.head h]
      rw [visitProxies]
      rw [List.get_eq_getElem, List.head_eq_getElem_zero h]
    rw [h2]

/-- Claim C7 witness: a concrete three-element pool. -/
theorem c7_proxy_rotation_witness :
    getNextProxy 2 [10, 20, 30] = some (30, 0) ∧
    visitProxies [10, 20, 30] 0 4 = [10, 20, 30, 10] := by
  constructor
  · have h := (c7_proxy_rotation Nat).2.2.1 2 [10, 20, 30] (by decide)
    simpa using h
  · have h := (c7_proxy_rotation Nat).2.2.2 [10, 20, 30] (by decide)
    simpa using h

/-- Claim C2 counterexample: with an allowed threshold of 3, a counter that
stands at 5 both before and after the step (so the increase during the step
is 0) still makes catchResourceLoadErrors report the step as failed,
because the source compares the absolute after-snapshot, not the delta,
with the threshold; the delta comparison the claim describes is false
here. -/
theorem c2_counterexample :
    catchResourceLoadErrors (some 3) 5 5 false = Except.ok true ∧
    specDeltaSignal (some 3) 5 5 = false :=
  ⟨rfl, rfl⟩

/-- Claim C2 as amended: for a numeric allowed threshold, a gated step's
failure signal is true exactly when the counter did not decrease during
the step and the after-snapshot of the counter (the total since the
navigation started, not the increase during the step) exceeds the allowed
threshold; an exception thrown by the wrapped step is re-thrown after the
signal is recorded, and the throw path never returns a signal. -/
theorem c2_failure_signal_amended :
    ∀ (a errorsBefore errorsAfter : Int),
      (catchResourceLoadErrors (some a) errorsBefore errorsAfter false = Except.ok true ↔
        (errorsBefore ≤ errorsAfter ∧ a < errorsAfter)) ∧
      catchResourceLoadErrors (some a) errorsBefore errorsAfter true =
        Except.error (failureSignal (some a) errorsBefore errorsAfter) := by
  intro a b c
  constructor
  · simp only [catchResourceLoadErrors, if_neg (by simp : ¬ (false = true)),
      Except.ok.injEq, failureSignal, jsGt, Bool.and_eq_true, decide_eq_true_eq]
    omega
  · rfl

/-- Claim C10: the CLI option table never produces a
resourceHttpErrorAllowed attribute, so the field is the JavaScript value
undefined; a number compared with undefined via the greater-than operator
is never greater, hence catchResourceLoadErrors returns false whenever the
wrapped step completes without throwing, and the goto() progress watcher's
abort branch never fires. -/
theorem c10_resource_error_allowance_never_fires :
    cliOptionAttributes.contains "resourceHttpErrorAllowed" = false ∧
    (∀ counter : Int, jsGt counter none = false) ∧
    (∀ errorsBefore errorsAfter : Int,
      catchResourceLoadErrors none errorsBefore errorsAfter false = Except.ok false) ∧
    (∀ counter : Int, gotoWatcherAborts counter none = false) := by
  refine ⟨by decide, fun c => rfl, fun b c => ?_, fun c => rfl⟩
  simp [catchResourceLoadErrors, failureSignal, jsGt]

/-- Claim C1 counterexample: at leniency 11 the navigation step (threshold
11) still aborts the attempt when a goto error was detected, because its
gate is leniency <= 11; so it is not true that at leniency 11 only the
error-text scan can abort. -/
theorem c1_counterexample :
    generatePagePdfAborts 11 false false (soloErrors Step.goto) = some Step.goto ∧
    Step.goto ≠ Step.errorTextScan := by
  decide

/-- Claim C1 as amended: for every gated step with fixed threshold T, an
error signal detected at that step (and at no other step) aborts the
attempt at that step iff leniency <= T; consequently no gated step can
abort once leniency >= 12 (rather than 11), where the only remaining abort
sites are the unconditional error-text scan and a PDF-capture failure. -/
theorem c1_leniency_gating_amended :
    (∀ (l t : Nat) (s : Step), stepThreshold s = some t →
      (generatePagePdfAborts l (soloIsToC s) false (soloErrors s) = some s ↔ l ≤ t)) ∧
    (∀ (l : Nat) (isToCPage links : Bool) (e : StepErrors), 12 ≤ l →
      generatePagePdfAborts l isToCPage links e = none ∨
      generatePagePdfAborts l isToCPage links e = some Step.errorTextScan ∨
      generatePagePdfAborts l isToCPage links e = some Step.pdfRender) := by
  constructor
  · intro l t s hs
    cases s <;>
      first
        | (simp only [stepThreshold, Option.some.injEq] at hs
           subst hs
           simp [generatePagePdfAborts, soloErrors, soloIsToC, noErrors,
             Option.ite_none_right_eq_some]
           try omega)
        | exact absurd hs (by simp [stepThreshold])
  · intro l isToCPage links e hl
    have h11 : ¬ l ≤ 11 := by omega
    have h10 : ¬ l ≤ 10 := by omega
    have h9 : ¬ l ≤ 9 := by omega
    have h8 : ¬ l ≤ 8 := by omega
    have h6 : ¬ l ≤ 6 := by omega
    have h5 : ¬ l ≤ 5 := by omega
    have h4 : ¬ l ≤ 4 := by omega
    have h3 : ¬ l ≤ 3 := by omega
    have h2 : ¬ l ≤ 2 := by omega
    have h1 : ¬ l ≤ 1 := by omega
    have h0 : ¬ l = 0 := by omega
    by_cases he : e.errorTextFound = true
    · simp [generatePagePdfAborts, h11, h10, h9, h8, h6, h5, h4, h3, h2, h1, h0, he]
    · by_cases hp : e.pdfRenderError = true
      · simp [generatePagePdfAborts, h11, h10, h9, h8, h6, h5, h4, h3, h2, h1, h0, he, hp]
      · simp [generatePagePdfAborts, h11, h10, h9, h8, h6, h5, h4, h3, h2, h1, h0, he, hp]

/-- Claim C1 witness: the scroll step (threshold 10) aborts at leniency 10,
and at leniency 12 a goto error no longer aborts the attempt. -/
theorem c1_leniency_gating_witness :
    generatePagePdfAborts 10 false false (soloErrors Step.scroll) = some Step.scroll ∧
    generatePagePdfAborts 12 false false (soloErrors Step.goto) = none := by
  constructor
  · exact (c1_leniency_gating_amended.1 10 10 Step.scroll rfl).2 (by omega)
  · rcases c1_leniency_gating_amended.2 12 false false (soloErrors Step.goto) (by omega)
      with h | h | h
    · exact h
    · exact absurd h (by decide)
    · exact absurd h (by decide)

theorem isDone_prependEvs (evs : List Ev) (r : RunResult) :
    isDone (prependEvs evs r) = isDone r := by
  cases r <;> rfl

theorem resultEvs_prependEvs (evs : List Ev) (r : RunResult) :
    resultEvs (prependEvs evs r) = evs ++ resultEvs r := by
  cases r <;> rfl

theorem renders_append (a b : List Ev) : renders (a ++ b) = renders a + renders b := by
  simp [renders, List.countP_append]

theorem processUrl_unlimited (o : GenOpts) :
    ∀ (fuel attempt : Nat) (st : LoopState), o.retries = 0 →
      isDone (processUrl o false false (fun _ => false) fuel attempt st) = false := by
  intro fuel
  induction fuel with
  | zero => intro attempt st h; rfl
  | succ fuel ih =>
    intro attempt st h
    simp only [processUrl]
    simp [willRetry, h, isDone_prependEvs, ih]

theorem processUrl_allFail (o : GenOpts) (h0 : 0 < o.retries) :
    ∀ (fuel attempt : Nat) (st : LoopState), 0 < attempt → attempt ≤ o.retries →
      o.retries + 1 ≤ fuel + attempt →
      ∃ evs st2,
        processUrl o false false (fun _ => false) fuel attempt st = .done evs st2 false ∧
          renders evs = o.retries + 1 - attempt := by
  intro fuel
  induction fuel with
  | zero => intro attempt st h1 h2 h3; omega
  | succ fuel ih =>
    intro attempt st h1 h2 h3
    by_cases hlast : attempt < o.retries
    · have hw : willRetry o.retries attempt = true := by
        simp only [willRetry, Bool.or_eq_true, decide_eq_true_eq]
        omega
      obtain ⟨evs2, st2, heq, hr⟩ := ih (attempt + 1)
        (if sleepNeeded o (st.pageLoadErrorCounter + 1) = true then
          ⟨0, st.pageGenerationCounter + 1⟩
        else ⟨st.pageLoadErrorCounter + 1, st.pageGenerationCounter + 1⟩)
        (by omega) (by omega) (by omega)
      simp only [processUrl]
      simp [hw]
      rw [heq]
      refine ⟨_, ⟨st2, rfl⟩, ?_⟩
      by_cases hsl : sleepNeeded o (st.pageLoadErrorCounter + 1) = true <;>
        simp [hsl, renders_append, renders, List.countP_cons, hr] <;>
        simp [renders] at hr <;> omega
    · have heq : attempt = o.retries := by omega
      have hw : willRetry o.retries attempt = false := by
        simp only [willRetry, Bool.or_eq_false_iff, decide_eq_false_iff_not]
        omega
      simp only [processUrl]
      simp [hw]
      simp [renders, List.countP_cons, List.countP_nil]
      omega

/-- Claim C3: with an always-failing task, retries = 0 means the attempt
loop never finishes (for every amount of fuel it is still retrying, so it
never reaches an exhausted-retries rejection), while retries = k > 0 means
the loop finishes as rejected after exactly k render attempts. -/
theorem c3_retry_budget :
    (∀ (o : GenOpts) (fuel attempt : Nat) (st : LoopState), o.retries = 0 →
      isDone (processUrl o false false (fun _ => false) fuel attempt st) = false) ∧
    (∀ (o : GenOpts) (fuel : Nat) (st : LoopState), 0 < o.retries → o.retries ≤ fuel →
      resultSuccess (processUrl o false false (fun _ => false) fuel 1 st) = some false ∧
        renders (resultEvs (processUrl o false false (fun _ => false) fuel 1 st)) =
          o.retries) := by
  constructor
  · intro o fuel attempt st h
    exact processUrl_unlimited o fuel attempt st h
  · intro o fuel st hr hf
    obtain ⟨evs, st2, heq, hcount⟩ :=
      processUrl_allFail o hr fuel 1 st (by omega) (by omega) (by omega)
    rw [heq]
    refine ⟨rfl, ?_⟩
    simp only [resultEvs]
    omega

/-- Claim C3 witness: concrete runs with retries 0 and retries 3. -/
theorem c3_retry_budget_witness :
    isDone (processUrl ⟨0, false, 0, 0, none⟩ false false (fun _ => false) 5 1 ⟨0, 0⟩)
      = false ∧
    resultSuccess (processUrl ⟨3, false, 0, 0, none⟩ false false (fun _ => false) 3 1 ⟨0, 0⟩)
      = some false ∧
    renders (resultEvs (processUrl ⟨3, false, 0, 0, none⟩ false false
      (fun _ => false) 3 1 ⟨0, 0⟩)) = 3 := by
  refine ⟨c3_retry_budget.1 ⟨0, false, 0, 0, none⟩ 5 1 ⟨0, 0⟩ rfl, ?_, ?_⟩
  · exact (c3_retry_budget.2 ⟨3, false, 0, 0, none⟩ 3 ⟨0, 0⟩ (by decide) (by decide)).1
  · exact (c3_retry_budget.2 ⟨3, false, 0, 0, none⟩ 3 ⟨0, 0⟩ (by decide) (by decide)).2

/-- Claim C4: when a cached artifact exists, a non-ToC task without the
force option performs zero render attempts and only appends the cached
artifact, leaving the counters untouched; when force is set or the task is
the ToC page, the iteration always starts by rendering the page. -/
theorem c4_cache_reuse :
    (∀ (o : GenOpts) (succeeds : Nat → Bool) (fuel attempt : Nat) (st : LoopState),
      o.force = false →
      processUrl o false true succeeds (fuel + 1) attempt st =
        RunResult.done [Ev.appendCached] st true ∧ renders [Ev.appendCached] = 0) ∧
    (∀ (o : GenOpts) (isToCPage : Bool) (succeeds : Nat → Bool) (fuel attempt : Nat)
      (st : LoopState), o.force = true ∨ isToCPage = true →
      ∃ rest,
        resultEvs (processUrl o isToCPage true succeeds (fuel + 1) attempt st) =
          Ev.render attempt :: rest) := by
  constructor
  · intro o succeeds fuel attempt st hf
    constructor
    · simp [processUrl, hf]
    · rfl
  · intro o isToCPage succeeds fuel attempt st h
    have hc : (true && !isToCPage && !o.force) = false := by
      rcases h with h | h <;> simp [h]
    simp only [processUrl]
    rw [hc]
    simp only [Bool.false_eq_true, if_false]
    by_cases hsucc : succeeds attempt = true
    · simp [hsucc, resultEvs]
    · by_cases hw : willRetry o.retries attempt = true
      · simp [hsucc, hw, resultEvs_prependEvs]
      · simp [hsucc, hw, resultEvs]

/-- Claim C4 witness: a cached non-ToC task appends without rendering; the
same cached artifact on a ToC task is re-rendered. -/
theorem c4_cache_reuse_witness :
    processUrl ⟨5, false, 0, 100, none⟩ false true (fun _ => true) 1 1 ⟨0, 0⟩ =
      RunResult.done [Ev.appendCached] ⟨0, 0⟩ true ∧
    resultEvs (processUrl ⟨5, false, 0, 100, none⟩ true true (fun _ => true) 1 1 ⟨0, 0⟩) =
      [Ev.render 1, Ev.newBrowser false, Ev.appendRendered] := by
  constructor
  · exact (c4_cache_reuse.1 ⟨5, false, 0, 100, none⟩ (fun _ => true) 0 1 ⟨0, 0⟩ rfl).1
  · obtain ⟨rest, hrest⟩ :=
      c4_cache_reuse.2 ⟨5, false, 0, 100, none⟩ true (fun _ => true) 0 1 ⟨0, 0⟩ (Or.inr rfl)
    rfl

/-- Claim C8 counterexample: no proxies are configured (the proxy option is
absent) and a retryable failure occurs, yet because the configured wait
time is 0 the loop neither sleeps nor resets the failure counter: the
events contain no sleep and the failure counter afterwards is 1, not 0. -/
theorem c8_counterexample :
    processUrl ⟨2, false, 0, 0, none⟩ false false (fun _ => false) 1 1 ⟨0, 0⟩ =
      RunResult.fuelOut [Ev.render 1, Ev.fullReset, Ev.newBrowser true] ⟨1, 1⟩ ∧
    ([Ev.render 1, Ev.fullReset, Ev.newBrowser true].contains (Ev.sleep 0)) = false := by
  constructor
  · rfl
  · rfl

/-- Claim C8 as amended: on every retryable failure the loop performs a
full session reset before starting the next browser, and it sleeps for the
configured wait time exactly when the incremented failure count has
reached the proxy pool size, the pool is empty, or no proxies are
configured, provided additionally that the configured wait time is
positive; the state carried into the next attempt has the failure counter
reset to zero exactly when that backoff was taken (and incremented
otherwise), as the single-iteration run (fuel 1) shows. -/
theorem c8_reset_and_backoff_amended :
    ∀ (o : GenOpts) (isToCPage : Bool) (succeeds : Nat → Bool) (fuel attempt : Nat)
      (st : LoopState), succeeds attempt = false → willRetry o.retries attempt = true →
      (∃ rest,
        resultEvs (processUrl o isToCPage false succeeds (fuel + 1) attempt st) =
          Ev.render attempt :: Ev.fullReset ::
            ((if sleepNeeded o (st.pageLoadErrorCounter + 1) then [Ev.sleep o.waitTime]
              else []) ++ Ev.newBrowser true :: rest)) ∧
      (sleepNeeded o (st.pageLoadErrorCounter + 1) = true ↔
        ((match o.proxy with
          | some ps => ps.length = 0 ∨ ps.length ≤ st.pageLoadErrorCounter + 1
          | none => True) ∧ 0 < o.waitTime)) ∧
      processUrl o isToCPage false succeeds 1 attempt st =
        RunResult.fuelOut
          (Ev.render attempt :: Ev.fullReset ::
            ((if sleepNeeded o (st.pageLoadErrorCounter + 1) then [Ev.sleep o.waitTime]
              else []) ++ [Ev.newBrowser true]))
          (if sleepNeeded o (st.pageLoadErrorCounter + 1) then
            ⟨0, st.pageGenerationCounter + 1⟩
          else ⟨st.pageLoadErrorCounter + 1, st.pageGenerationCounter + 1⟩) := by
  intro o isToCPage succeeds fuel attempt st hsucc hw
  refine ⟨?_, ?_, ?_⟩
  · simp only [processUrl]
    simp [hsucc, hw, resultEvs_prependEvs]
  · cases hp : o.proxy with
    | none => simp [sleepNeeded, hp]
    | some ps =>
      simp [sleepNeeded, hp, Bool.and_eq_true, Bool.or_eq_true, decide_eq_true_eq]
  · show processUrl o isToCPage false succeeds (0 + 1) attempt st = _
    simp only [processUrl]
    simp [hsucc, hw, prependEvs]

/-- Claim C8 witness: with one proxy, a wait time of 7 and a first failure,
the failure count reaches the pool size, so the backoff sleep is taken and
the failure counter carried into the next attempt is reset to zero. -/
theorem c8_reset_and_backoff_witness :
    resultEvs (processUrl ⟨3, false, 7, 0, some ["p1"]⟩ false false
        (fun _ => false) 1 1 ⟨0, 0⟩) =
      [Ev.render 1, Ev.fullReset, Ev.sleep 7, Ev.newBrowser true] ∧
    sleepNeeded ⟨3, false, 7, 0, some ["p1"]⟩ 1 = true ∧
    processUrl ⟨3, false, 7, 0, some ["p1"]⟩ false false (fun _ => false) 1 1 ⟨0, 0⟩ =
      RunResult.fuelOut [Ev.render 1, Ev.fullReset, Ev.sleep 7, Ev.newBrowser true]
        ⟨0, 1⟩ := by
  refine ⟨?_, ?_, ?_⟩
  · obtain ⟨rest, hrest⟩ :=
      (c8_reset_and_backoff_amended ⟨3, false, 7, 0, some ["p1"]⟩ false
        (fun _ => false) 0 1 ⟨0, 0⟩ rfl rfl).1
    rfl
  · exact (c8_reset_and_backoff_amended ⟨3, false, 7, 0, some ["p1"]⟩ false
      (fun _ => false) 0 1 ⟨0, 0⟩ rfl rfl).2.1.mpr ⟨by decide, by decide⟩
  · have h := (c8_reset_and_backoff_amended ⟨3, false, 7, 0, some ["p1"]⟩ false
      (fun _ => false) 0 1 ⟨0, 0⟩ rfl rfl).2.2
    rw [h]
    rfl

/-- Claim C9 counterexample: with a new-browser threshold of 2, a task
whose first attempt fails and whose second attempt succeeds triggers a
forced full reset on the success path after only one successful page load,
because the generation counter that the threshold check uses counts the
failed attempt as well. -/
theorem c9_counterexample :
    processUrl ⟨3, false, 0, 2, none⟩ false false (fun n => decide (n = 2)) 2 1 ⟨0, 0⟩ =
      RunResult.done [Ev.render 1, Ev.fullReset, Ev.newBrowser true, Ev.render 2,
        Ev.fullReset, Ev.newBrowser true, Ev.appendRendered] ⟨0, 2⟩ true := by
  rfl

/-- Claim C9 as amended: on a successful attempt a full browser reset is
forced exactly when the updated generation counter, which counts every
generatePagePdf call so far (failed attempts included, across all URLs),
is a positive multiple of the new-browser threshold; otherwise only a new
tab is opened on the same browser.  The failure counter is reset to zero
and the artifact appended in either case. -/
theorem c9_session_recycling_amended :
    ∀ (o : GenOpts) (isToCPage : Bool) (succeeds : Nat → Bool) (fuel attempt : Nat)
      (st : LoopState), succeeds attempt = true →
      processUrl o isToCPage false succeeds (fuel + 1) attempt st =
        RunResult.done ([Ev.render attempt]
          ++ (if newBrowserNeeded o (st.pageGenerationCounter + 1) then [Ev.fullReset]
              else [])
          ++ [Ev.newBrowser (newBrowserNeeded o (st.pageGenerationCounter + 1)),
              Ev.appendRendered])
          ⟨0, st.pageGenerationCounter + 1⟩ true ∧
      (newBrowserNeeded o (st.pageGenerationCounter + 1) = true ↔
        (0 < o.newBrowserPerUrls ∧
          (st.pageGenerationCounter + 1) % o.newBrowserPerUrls = 0)) := by
  intro o isToCPage succeeds fuel attempt st hsucc
  constructor
  · simp [processUrl, hsucc]
  · simp [newBrowserNeeded, Bool.and_eq_true, decide_eq_true_eq]

/-- Claim C9 witness: with threshold 2 and one prior generation call, a
success forces the full reset; with no prior call it only recycles the
tab. -/
theorem c9_session_recycling_witness :
    processUrl ⟨3, false, 0, 2, none⟩ false false (fun _ => true) 1 1 ⟨0, 1⟩ =
      RunResult.done [Ev.render 1, Ev.fullReset, Ev.newBrowser true, Ev.appendRendered]
        ⟨0, 2⟩ true ∧
    processUrl ⟨3, false, 0, 2, none⟩ false false (fun _ => true) 1 1 ⟨0, 0⟩ =
      RunResult.done [Ev.render 1, Ev.newBrowser false, Ev.appendRendered] ⟨0, 1⟩ true := by
  constructor
  · have h := (c9_session_recycling_amended ⟨3, false, 0, 2, none⟩ false
      (fun _ => true) 0 1 ⟨0, 1⟩ rfl).1
    rw [h]
    rfl
  · have h := (c9_session_recycling_amended ⟨3, false, 0, 2, none⟩ false
      (fun _ => true) 0 1 ⟨0, 0⟩ rfl).1
    rw [h]
    rfl

theorem eraseIdx_append_cons {α : Type} (pre : List α) (p : α) (suf : List α) :
    (pre ++ p :: suf).eraseIdx pre.length = pre ++ suf := by
  induction pre with
  | nil => rfl
  | cons a pre ih =>
    show (a :: (pre ++ p :: suf)).eraseIdx (pre.length + 1) = a :: (pre ++ suf)
    rw [List.eraseIdx_cons_succ, ih]

theorem removeEmptyPages_go {α : Type} (threshold : ℚ) :
    ∀ (lines : List InkCov) (suf pre : List α) (removed : Nat),
      lines.length = suf.length → (∀ l ∈ lines, 0 ≤ covSum l) →
      removeEmptyPages threshold lines (pre.length + removed) removed (pre ++ suf) =
        (pre ++ keepPages threshold lines suf,
          removed + lines.countP fun l => decide (covSum l < threshold)) := by
  intro lines
  induction lines with
  | nil =>
    intro suf pre removed hlen hpos
    have hsuf : suf = [] := List.length_eq_zero.mp hlen.symm
    subst hsuf
    simp [removeEmptyPages, keepPages]
  | cons line rest ih =>
    intro suf pre removed hlen hpos
    cases suf with
    | nil => simp at hlen
    | cons p suf =>
      have hl : 0 ≤ covSum line := hpos line (by simp)
      have hrest : ∀ l ∈ rest, 0 ≤ covSum l := fun l hm => hpos l (by simp [hm])
      have hlen2 : rest.length = suf.length := by simpa using hlen
      rw [removeEmptyPages]
      by_cases hc : covSum line < threshold
      · rw [if_pos ⟨hl, hc⟩]
        have hidx : pre.length + removed - removed = pre.length := by omega
        rw [hidx, eraseIdx_append_cons]
        have harg : pre.length + removed + 1 = pre.length + (removed + 1) := by omega
        rw [harg, ih suf pre (removed + 1) hlen2 hrest]
        simp [keepPages, hc, List.countP_cons]
        omega
      · rw [if_neg (by tauto)]
        have harg : pre.length + removed + 1 = (pre ++ [p]).length + removed := by
          simp
          omega
        have hassoc : pre ++ p :: suf = (pre ++ [p]) ++ suf := by simp
        rw [harg, hassoc, ih suf (pre ++ [p]) removed hlen2 hrest]
        simp [keepPages, hc, List.countP_cons]

/-- Claim C5: with one coverage line per page (all sums non-negative), the
removal pass keeps exactly the pages whose coverage sum is not strictly
below the threshold (the index adjustment by the removed-page count makes
the removals positionally correct), and the number of removed pages is the
number of below-threshold lines; the output file is re-saved exactly when
that number is positive, keeping the first save otherwise. -/
theorem c5_empty_page_removal (α : Type) :
    (∀ (threshold : ℚ) (lines : List InkCov) (doc : List α),
      lines.length = doc.length → (∀ l ∈ lines, 0 ≤ covSum l) →
      removeEmptyPages threshold lines 0 0 doc =
        (keepPages threshold lines doc,
          lines.countP fun l => decide (covSum l < threshold))) ∧
    (∀ (threshold : ℚ) (lines : List InkCov) (doc : List α), 0 < doc.length →
      (removeEmptyPages threshold lines 0 0 doc).2 = 0 →
      finalizeRun true threshold lines doc = ⟨0, some doc⟩) ∧
    (∀ (threshold : ℚ) (lines : List InkCov) (doc : List α), 0 < doc.length →
      0 < (removeEmptyPages threshold lines 0 0 doc).2 →
      finalizeRun true threshold lines doc =
        ⟨0, some (removeEmptyPages threshold lines 0 0 doc).1⟩) := by
  refine ⟨fun threshold lines doc hlen hpos => ?_, fun threshold lines doc hdoc hrem => ?_,
    fun threshold lines doc hdoc hrem => ?_⟩
  · have h := removeEmptyPages_go threshold lines doc [] 0 hlen hpos
    simpa using h
  · simp [finalizeRun, hdoc, hrem]
  · have hne : ¬ (removeEmptyPages threshold lines 0 0 doc).2 = 0 := by omega
    simp [finalizeRun, hdoc, hrem]

/-- Claim C5 witness: coverage sums 0.02, 0.001 and 0.05 against threshold
0.008 on a three-page document remove exactly the page at index 1. -/
theorem c5_empty_page_removal_witness :
    removeEmptyPages ((8 : ℚ)/1000)
      [⟨2/100, 0, 0, 0⟩, ⟨1/1000, 0, 0, 0⟩, ⟨5/100, 0, 0, 0⟩] 0 0 [0, 1, 2] =
      ([0, 2], 1) := by
  rw [(c5_empty_page_removal Nat).1 ((8 : ℚ)/1000)
    [⟨2/100, 0, 0, 0⟩, ⟨1/1000, 0, 0, 0⟩, ⟨5/100, 0, 0, 0⟩] [0, 1, 2] rfl ?_]
  · norm_num [keepPages, covSum, List.countP_cons, List.countP_nil]
  · intro l hl
    simp only [List.mem_cons, List.not_mem_nil, or_false] at hl
    rcases hl with rfl | rfl | rfl <;> norm_num [covSum]

/-- Claim C6 counterexample: a one-page document whose single page is below
the cleanup threshold is first saved, then emptied by the cleanup pass and
re-saved: the final combined document has zero pages, yet an output file
was written (containing the empty document) and the exit code is 0, not a
distinct fatal one. -/
theorem c6_counterexample :
    finalizeRun true ((8 : ℚ)/1000) [⟨1/1000, 0, 0, 0⟩] [0] =
      ({ exitCode := 0, written := some [] } : MainOutcome Nat) := by
  have hval : removeEmptyPages ((8 : ℚ)/1000) [⟨1/1000, 0, 0, 0⟩] 0 0 ([0] : List Nat) =
      ([], 1) := by
    rw [removeEmptyPages, if_pos]
    · rfl
    · constructor <;> norm_num [covSum]
  unfold finalizeRun
  simp only [hval]
  norm_num

/-- Claim C6 as amended: the zero-page check happens at assembly time,
before cleanup: a document with zero pages at that point exits with the
distinct code 15 and writes no file, and a document with at least one page
at that point always gets an output file and exit code 0 — but the file
re-saved after cleanup may itself contain zero pages. -/
theorem c6_assembly_amended (α : Type) :
    ∀ (cleanup : Bool) (threshold : ℚ) (lines : List InkCov) (doc : List α),
      (doc.length = 0 → finalizeRun cleanup threshold lines doc =
        ({ exitCode := 15, written := none } : MainOutcome α)) ∧
      (0 < doc.length → (finalizeRun cleanup threshold lines doc).exitCode = 0 ∧
        (finalizeRun cleanup threshold lines doc).written.isSome = true) := by
  intro cleanup threshold lines doc
  constructor
  · intro h
    simp [finalizeRun, h]
  · intro h
    unfold finalizeRun
    rw [if_pos h]
    cases cleanup with
    | false => exact ⟨rfl, rfl⟩
    | true =>
      by_cases hrem : 0 < (removeEmptyPages threshold lines 0 0 doc).2 <;>
        simp [hrem]

/-- Claim C6 witness: an empty document at assembly exits 15 with no file;
a non-empty document without cleanup writes the file with exit code 0. -/
theorem c6_assembly_witness :
    finalizeRun true ((8 : ℚ)/1000) [] ([] : List Nat) =
      ({ exitCode := 15, written := none } : MainOutcome Nat) ∧
    (finalizeRun false 0 [] ([7] : List Nat)).exitCode = 0 ∧
    (finalizeRun false 0 [] ([7] : List Nat)).written.isSome = true := by
  refine ⟨(c6_assembly_amended Nat true ((8 : ℚ)/1000) [] []).1 rfl, ?_, ?_⟩
  · exact ((c6_assembly_amended Nat false 0 [] [7]).2 (by decide)).1
  · exact ((c6_assembly_amended Nat false 0 [] [7]).2 (by decide)).2
